import Mathlib

/-!
Verification development for `vgexplorer.py`, a file-browser panel that
mirrors a vim/neovim instance's working directory.

The embedding models:
- the POSIX path helpers the code uses (`os.path.join`, `os.path.basename`,
  `os.path.dirname`, `pathlib.Path(...).parent`, `str.strip`);
- a flat filesystem state (a list of directory paths and a list of
  file-path/content pairs) together with the OS primitives the code calls
  (`os.mkdir`, `touch`, `os.rename`, `shutil.copy2`, `os.path.exists`,
  `os.path.isdir`, `os.path.isfile`);
- strict UTF-8 decoding as performed by Python's `bytes.decode("utf-8")`;
- the per-datagram body of `Daemon.run`, the context-menu handlers of
  `VGExplorer.show_menu`, `VGExplorer.copy`, `VGExplorer.mkdir`,
  `VGExplorer.touch`, `VGExplorer.move`, `VGExplorer.find_enclosing_dir`,
  `VGExplorer.get_cwd`, `get_dialog_str`, `run_toggle` and the toggle
  branch of `main`.

All character-level string work is done on `List Char` with structural
recursion so every definition evaluates by `decide` / `rfl`.
-/

/-- Python truthiness / equality helpers work on the character list of a
string; `String.data` exposes it. -/
def strOf (cs : List Char) : String := String.mk cs

/-- Whether a character is the POSIX path separator. -/
def isSlash (c : Char) : Bool := c == '/'

/-- `l1` is a prefix of `l2` (decidable, structural). -/
def isPre : List Char → List Char → Bool
  | [], _ => true
  | _ :: _, [] => false
  | a :: as, b :: bs => a == b && isPre as bs

/-- Split a character list on `'/'`, like Python's `str.split('/')`
(always returns at least one piece). -/
def splitSlash : List Char → List (List Char)
  | [] => [[]]
  | c :: t =>
    let r := splitSlash t
    if isSlash c then [] :: r
    else
      match r with
      | [] => [[c]]
      | h :: t2 => (c :: h) :: t2

/-- Interleave `'/'` between pieces, like `'/'.join`. -/
def joinSlash : List (List Char) → List Char
  | [] => []
  | [x] => x
  | x :: xs => x ++ '/' :: joinSlash xs

/-- Embeds `posixpath.join(a, b)` (two-argument form): if `b` is absolute it
replaces `a`; otherwise it is appended with a separator unless `a` is empty
or already ends in one. -/
def osPathJoinCh (a b : List Char) : List Char :=
  if b.head? = some '/' then b
  else if a = [] ∨ a.getLast? = some '/' then a ++ b
  else a ++ '/' :: b

def osPathJoin (a b : String) : String := strOf (osPathJoinCh a.data b.data)

/-- Embeds `posixpath.basename(p)`: the suffix after the last `'/'`. -/
def osPathBasenameCh (cs : List Char) : List Char :=
  (cs.reverse.takeWhile (fun c => !isSlash c)).reverse

def osPathBasename (p : String) : String := strOf (osPathBasenameCh p.data)

/-- Embeds `posixpath.dirname(p)`: everything up to the last `'/'`, with
trailing separators stripped unless the head is all separators. -/
def osDirnameCh (cs : List Char) : List Char :=
  let tl := cs.reverse.takeWhile (fun c => !isSlash c)
  let hd := (cs.reverse.drop tl.length).reverse
  if hd.any (fun c => !isSlash c) then
    (hd.reverse.dropWhile isSlash).reverse
  else hd

def osDirname (p : String) : String := strOf (osDirnameCh p.data)

/-- The normalized components of a `pathlib.PurePosixPath`: empty and `"."`
pieces are dropped.  (The POSIX double-slash root special case is not
modelled.) -/
def pathParts (cs : List Char) : List (List Char) :=
  (splitSlash cs).filter (fun p => decide (p ≠ []) && decide (p ≠ ['.']))

/-- Embeds `str(pathlib.Path(p).parent)`. -/
def pyPathParentCh (cs : List Char) : List Char :=
  let ps := (pathParts cs).dropLast
  if cs.head? = some '/' then '/' :: joinSlash ps
  else
    match ps with
    | [] => ['.']
    | _ => joinSlash ps

def pyPathParent (p : String) : String := strOf (pyPathParentCh p.data)

/-- Whether `s` contains `'/'`: embeds Python's membership test
`"/" in path` on a string operand. -/
def containsSlash (s : String) : Bool := s.data.contains '/'

/-- ASCII whitespace stripped by Python's `str.strip()` (the full Python
set also includes some non-ASCII code points, which the modelled strings
never contain). -/
def isPySpace (c : Char) : Bool :=
  c == ' ' || c == '\t' || c == '\n' || c == '\r' ||
  c == Char.ofNat 11 || c == Char.ofNat 12

/-- Embeds `str.strip()` over the modelled whitespace set. -/
def pyStrip (s : String) : String :=
  strOf (((s.data.dropWhile isPySpace).reverse.dropWhile isPySpace).reverse)

/-- Whether a byte is a UTF-8 continuation byte (`0x80`–`0xBF`). -/
def isCont (b : Nat) : Bool := decide (0x80 ≤ b ∧ b ≤ 0xBF)

/-- Strict UTF-8 decoding of a byte sequence to code points, as performed by
Python's `bytes.decode("utf-8")`: overlong encodings, surrogates, code
points above `0x10FFFF` and truncated sequences are all rejected
(`UnicodeDecodeError`, modelled as `none`). -/
def utf8Decode : List Nat → Option (List Nat)
  | [] => some []
  | b :: rest =>
    if b ≤ 0x7F then
      (utf8Decode rest).map (fun t => b :: t)
    else if 0xC2 ≤ b ∧ b ≤ 0xDF then
      match rest with
      | c1 :: rest1 =>
        if isCont c1 then
          (utf8Decode rest1).map (fun t => ((b - 0xC0) * 0x40 + (c1 - 0x80)) :: t)
        else none
      | [] => none
    else if 0xE0 ≤ b ∧ b ≤ 0xEF then
      match rest with
      | c1 :: c2 :: rest2 =>
        if isCont c1 ∧ isCont c2 ∧ (b = 0xE0 → 0xA0 ≤ c1) ∧ (b = 0xED → c1 ≤ 0x9F) then
          (utf8Decode rest2).map
            (fun t => ((b - 0xE0) * 0x1000 + (c1 - 0x80) * 0x40 + (c2 - 0x80)) :: t)
        else none
      | _ => none
    else if 0xF0 ≤ b ∧ b ≤ 0xF4 then
      match rest with
      | c1 :: c2 :: c3 :: rest3 =>
        if isCont c1 ∧ isCont c2 ∧ isCont c3 ∧ (b = 0xF0 → 0x90 ≤ c1) ∧ (b = 0xF4 → c1 ≤ 0x8F) then
          (utf8Decode rest3).map
            (fun t =>
              ((b - 0xF0) * 0x40000 + (c1 - 0x80) * 0x1000 +
                (c2 - 0x80) * 0x40 + (c3 - 0x80)) :: t)
        else none
      | _ => none
    else none

/-- The code-point sequence of the literal `"toggle"`. -/
def toggleText : List Nat := [116, 111, 103, 103, 108, 101]

/-- A flat model of the local filesystem: directory paths and
file-path/content pairs (contents are byte lists). -/
structure FS where
  dirs : List String
  files : List (String × List Nat)
deriving DecidableEq

def FS.fileNames (fs : FS) : List String := fs.files.map Prod.fst

/-- Embeds `os.path.isdir`. -/
def FS.isDirB (fs : FS) (p : String) : Bool := decide (p ∈ fs.dirs)

/-- Embeds `os.path.isfile`. -/
def FS.isFileB (fs : FS) (p : String) : Bool := decide (p ∈ fs.fileNames)

/-- Embeds `os.path.exists`. -/
def FS.existsB (fs : FS) (p : String) : Bool := fs.isDirB p || fs.isFileB p

/-- Content lookup for the file table. -/
def lookupFileList : List (String × List Nat) → String → Option (List Nat)
  | [], _ => none
  | (q, c) :: t, p => if q = p then some c else lookupFileList t p

def FS.contentOf (fs : FS) (p : String) : Option (List Nat) :=
  lookupFileList fs.files p

/-- A filesystem is sound when no path is simultaneously a directory and a
file — true of any real filesystem state. -/
def FS.Sound (fs : FS) : Prop := ∀ q ∈ fs.dirs, ¬ (q ∈ fs.fileNames)

instance (fs : FS) : Decidable fs.Sound := by
  unfold FS.Sound
  infer_instance

/-- Whether the parent directory of `p` exists (the empty dirname stands
for the process's current directory, which always exists). -/
def parentOk (fs : FS) (p : String) : Bool :=
  osDirname p == "" || fs.isDirB (osDirname p)

/-- Python-level exceptions surfaced by the modelled primitives. -/
inductive PyErr
  | typeError
  | fileExists
  | fileNotFound
  | isADirectory
deriving DecidableEq

/-- Embeds `os.mkdir(p)`: fails if `p` exists or its parent is missing. -/
def osMkdir (fs : FS) (p : String) : Except PyErr FS :=
  if fs.existsB p then .error .fileExists
  else if parentOk fs p then .ok (FS.mk (p :: fs.dirs) fs.files)
  else .error .fileNotFound

/-- Embeds `subprocess.run(["touch", p])`: creates an empty file when the
parent exists; on an existing path only the timestamp changes; a failing
`touch` writes to stderr but `run` ignores the exit status, so no
exception is ever raised. -/
def osTouch (fs : FS) (p : String) : FS :=
  if fs.existsB p then fs
  else if parentOk fs p then FS.mk fs.dirs ((p, []) :: fs.files)
  else fs

/-- Rewrite a path that equals `old` or lies under it to the corresponding
path under `new` (directory rename moves the whole subtree). -/
def renameUnder (old new p : String) : String :=
  if p = old then new
  else if isPre (old.data ++ ['/']) p.data then
    strOf (new.data ++ p.data.drop old.data.length)
  else p

/-- Embeds `os.rename(old, new)`.  A file rename replaces any existing file
at `new` and fails onto a directory; a directory rename is modelled only
for a fresh target (renaming onto an existing path is rejected). -/
def osRename (fs : FS) (old new : String) : Except PyErr FS :=
  match fs.contentOf old with
  | some c =>
    if fs.isDirB new then .error .isADirectory
    else if parentOk fs new then
      .ok (FS.mk fs.dirs ((new, c) :: fs.files.filter (fun q => !(q.1 == old) && !(q.1 == new))))
    else .error .fileNotFound
  | none =>
    if fs.isDirB old then
      if fs.existsB new then .error .fileExists
      else if parentOk fs new then
        .ok (FS.mk (fs.dirs.map (renameUnder old new))
          (fs.files.map (fun q => (renameUnder old new q.1, q.2))))
      else .error .fileNotFound
    else .error .fileNotFound

/-- Embeds `shutil.copy2(src, dst)`: copies the bytes of the file `src` to
`dst`, overwriting an existing file there; fails when `src` is missing or a
directory, when `dst` is a directory, or when `dst`'s parent is missing. -/
def shutilCopy2 (fs : FS) (src dst : String) : Except PyErr FS :=
  match fs.contentOf src with
  | none => if fs.isDirB src then .error .isADirectory else .error .fileNotFound
  | some c =>
    if fs.isDirB dst then .error .isADirectory
    else if parentOk fs dst then
      .ok (FS.mk fs.dirs ((dst, c) :: fs.files.filter (fun q => !(q.1 == dst))))
    else .error .fileNotFound

/-- The filesystem calls a handler makes, in order. -/
inductive FsOp
  | existsCheck (p : String)
  | mkdir (p : String)
  | touch (p : String)
  | rename (old new : String)
  | copy2 (src dst : String)
deriving DecidableEq

/-- How one iteration of the `Daemon.run` receive loop ends. -/
inductive DatagramResult
  | callbackInvoked (n : Nat)
  | decodeError
deriving DecidableEq

/-- Embeds the body of the `while True` loop in `Daemon.run` for one
datagram: `recv(1024)` truncates the payload to 1024 bytes, the bytes are
decoded strictly as UTF-8 (a failure raises `UnicodeDecodeError`, which
escapes `run` and kills the listener thread), and `toggle_show` is called
exactly when the decoded text equals `"toggle"`. -/
def Daemon.handleDatagram (payload : List Nat) : DatagramResult :=
  match utf8Decode (payload.take 1024) with
  | none => .decodeError
  | some text => .callbackInvoked (if text = toggleText then 1 else 0)

/-- Embeds `get_dialog_str(title, message)`: the dialog's text is returned
only when it was confirmed and non-empty, otherwise `None`. -/
def get_dialog_str (text : String) (confirm : Bool) : Option String :=
  if confirm = true ∧ text ≠ "" then some text else none

/-- Outcome of a context-menu handler as observed by the user. -/
inductive MenuOutcome
  | ok
  | invalidName
  | pyError (e : PyErr)
deriving DecidableEq

/-- Embeds `VGExplorer.mkdir(path)`: an `os.path.exists` guard followed by
`os.mkdir` when the path is absent. -/
def VGExplorer.mkdir (fs : FS) (p : String) : List FsOp × Except PyErr FS :=
  if fs.existsB p then ([FsOp.existsCheck p], .ok fs)
  else ([FsOp.existsCheck p, FsOp.mkdir p], osMkdir fs p)

/-- Embeds `VGExplorer.touch(path)`: a single `touch` subprocess call. -/
def VGExplorer.touch (fs : FS) (p : String) : List FsOp × FS :=
  ([FsOp.touch p], osTouch fs p)

/-- Embeds `VGExplorer.move(old_path, new_path)`: a bare `os.rename`. -/
def VGExplorer.move (fs : FS) (old new : String) : List FsOp × Except PyErr FS :=
  ([FsOp.rename old new], osRename fs old new)

/-- Report printed by `VGExplorer.copy`. -/
inductive CopyReport
  | skippedExists (dest : String)
  | copied (src dest : String)
  | raised (e : PyErr)
deriving DecidableEq

/-- Embeds `VGExplorer.copy(src_file, dest_dir)`: the destination is
`dest_dir` joined with `src_file`'s basename; if it already exists the copy
is skipped with a printed warning, otherwise `shutil.copy2` runs. -/
def VGExplorer.copy (fs : FS) (src_file dest_dir : String) :
    List FsOp × FS × CopyReport :=
  let dest_file := osPathJoin dest_dir (osPathBasename src_file)
  if fs.existsB dest_file then
    ([FsOp.existsCheck dest_file], fs, .skippedExists dest_file)
  else
    match shutilCopy2 fs src_file dest_file with
    | .ok fs2 => ([FsOp.existsCheck dest_file, FsOp.copy2 src_file dest_file], fs2,
        .copied src_file dest_file)
    | .error e => ([FsOp.existsCheck dest_file, FsOp.copy2 src_file dest_file], fs,
        .raised e)

/-- Embeds `VGExplorer.find_enclosing_dir(path)`: the path itself when it
is a directory, its `pathlib` parent when it is a file, and Python's
implicit `None` otherwise (the function falls off its end). -/
def VGExplorer.find_enclosing_dir (fs : FS) (path : String) : Option String :=
  if fs.isDirB path then some path
  else if fs.isFileB path then some (pyPathParent path)
  else none

/-- Embeds the `newFolderAction` branch of `show_menu`: the dialog result
is truthiness-tested (`if path:`), then joined onto `enclosing_dir` —
`os.path.join(None, ...)` raises `TypeError` — and handed to
`VGExplorer.mkdir` with no name validation. -/
def VGExplorer.showMenuNewFolder (fs : FS) (enclosing_dir : Option String)
    (dialog : Option String) : List FsOp × FS × MenuOutcome :=
  match dialog with
  | none => ([], fs, .ok)
  | some name =>
    if name = "" then ([], fs, .ok)
    else
      match enclosing_dir with
      | none => ([], fs, .pyError .typeError)
      | some d =>
        let r := VGExplorer.mkdir fs (osPathJoin d name)
        match r.2 with
        | .ok fs2 => (r.1, fs2, .ok)
        | .error e => (r.1, fs, .pyError e)

/-- Embeds the `newFileAction` branch of `show_menu`: like the new-folder
branch but calling `VGExplorer.touch`, again with no name validation. -/
def VGExplorer.showMenuNewFile (fs : FS) (enclosing_dir : Option String)
    (dialog : Option String) : List FsOp × FS × MenuOutcome :=
  match dialog with
  | none => ([], fs, .ok)
  | some name =>
    if name = "" then ([], fs, .ok)
    else
      match enclosing_dir with
      | none => ([], fs, .pyError .typeError)
      | some d =>
        let r := VGExplorer.touch fs (osPathJoin d name)
        (r.1, r.2, .ok)

/-- Embeds the `renameAction` branch of `show_menu`: the membership test
`"/" in path` runs first (raising `TypeError` when the dialog returned
`None`), a name containing `'/'` is rejected with an error dialog before
any filesystem call, and otherwise the name is joined onto `enclosing_dir`
and passed to `VGExplorer.move`. -/
def VGExplorer.showMenuRename (fs : FS) (enclosing_dir : Option String)
    (selected_path : String) (dialog : Option String) :
    List FsOp × FS × MenuOutcome :=
  match dialog with
  | none => ([], fs, .pyError .typeError)
  | some name =>
    if containsSlash name then ([], fs, .invalidName)
    else
      match enclosing_dir with
      | none => ([], fs, .pyError .typeError)
      | some d =>
        let r := VGExplorer.move fs selected_path (osPathJoin d name)
        match r.2 with
        | .ok fs2 => (r.1, fs2, .ok)
        | .error e => (r.1, fs, .pyError e)

/-- What `VGExplorer.open_file` observably does.  The source is a bare
`subprocess.call([...vim..., "--remote", path])` guarded by
`os.path.isfile`: the editor is invoked for files only, the call's return
status is discarded, no message is shown and no exception is raised. -/
structure OpenFileOutcome where
  editorInvoked : Bool
  errorReported : Bool
  processTerminated : Bool
deriving DecidableEq

/-- Embeds `VGExplorer.open_file`; `editorExit` is the exit status of the
spawned editor command, which the source never consults. -/
def VGExplorer.open_file (pathIsFile : Bool) (editorExit : Int) : OpenFileOutcome :=
  if pathIsFile then
    OpenFileOutcome.mk true false false
  else
    OpenFileOutcome.mk false false false

/-- Failure kind for the editor bridge. -/
inductive EditorErr
  | editorUnreachable
deriving DecidableEq

/-- Embeds `VGExplorer.get_cwd`: `subprocess.check_output` of
`--remote-expr getcwd()` raises `CalledProcessError` when the named editor
instance cannot be reached (modelled as `resp = none`); otherwise the
response text is stripped and returned.  (UTF-8 decoding of the response
bytes is taken at the text level.) -/
def VGExplorer.get_cwd (resp : Option String) : Except EditorErr String :=
  match resp with
  | none => .error .editorUnreachable
  | some s => .ok (pyStrip s)

/-- The panel state established by `VGExplorer.__init__`: only the root
path matters here. -/
structure PanelState where
  rootPath : String
deriving DecidableEq

/-- Embeds the start of `VGExplorer.__init__`: `rootPath = self.get_cwd()`
is the first effectful line, so a `get_cwd` failure propagates and the
panel is never constructed; on success the root is exactly the stripped
response. -/
def VGExplorer.initRoot (resp : Option String) : Except EditorErr PanelState :=
  match VGExplorer.get_cwd resp with
  | .error e => .error e
  | .ok p => .ok (PanelState.mk p)

/-- Failure kind for the toggle client. -/
inductive ToggleErr
  | noRunningInstance
deriving DecidableEq

/-- Embeds `run_toggle(server_name)`: `connect` on the derived socket
address raises (`FileNotFoundError` / `ConnectionRefusedError`) when no
endpoint is bound there — surfaced as `noRunningInstance`; otherwise the
`"toggle"` datagram is sent and the function returns. -/
def run_toggle (endpointBound : Bool) : Except ToggleErr Unit :=
  if endpointBound then .ok () else .error .noRunningInstance

/-- Observable outcome of a whole process run in toggle mode. -/
structure ToggleModeOutcome where
  exitCode : Nat
  datagramSent : Bool
  fsMutations : Nat
  guiStarted : Bool
deriving DecidableEq

/-- Embeds the `args.toggle` branch of `main`: `run_toggle` then
`sys.exit(0)`; an exception from `connect` is uncaught, so the interpreter
exits with status 1.  `QApplication` and `VGExplorer` are never constructed
in this branch and no filesystem mutation happens. -/
def mainToggleMode (endpointBound : Bool) : ToggleModeOutcome :=
  match run_toggle endpointBound with
  | .ok _ => ToggleModeOutcome.mk 0 true 0 false
  | .error _ => ToggleModeOutcome.mk 1 false 0 false

/-- Sanity: `toggleText` is exactly the code-point sequence of the string
literal `"toggle"` the source compares against. -/
theorem toggleText_matches : "toggle".data.map Char.toNat = toggleText := by decide

/-- Claim C1 (amended): the rename handler rejects a requested name
containing `'/'` before any filesystem call and leaves the filesystem
unchanged, but the new-folder and new-file handlers perform no such
validation: they always issue filesystem calls with the joined,
unvalidated name. -/
theorem rename_slash_rejected_creates_unchecked (fs : FS) (ed : Option String)
    (sel name : String) (h : containsSlash name = true) :
  VGExplorer.showMenuRename fs ed sel (some name) = ([], fs, MenuOutcome.invalidName) ∧
  (∀ d : String, (VGExplorer.showMenuNewFolder fs (some d) (some name)).1 ≠ []) ∧
  (∀ d : String, (VGExplorer.showMenuNewFile fs (some d) (some name)).1 ≠ []) := by
  have hne : name ≠ "" := by
    intro hs; rw [hs] at h; exact absurd h (by decide)
  refine ⟨by simp [VGExplorer.showMenuRename, h], ?_, ?_⟩
  · intro d
    simp only [VGExplorer.showMenuNewFolder, hne, if_neg]
    cases hm : (VGExplorer.mkdir fs (osPathJoin d name)).2 <;>
      simp [hm, VGExplorer.mkdir] <;> split <;> simp
  · intro d
    simp [VGExplorer.showMenuNewFile, hne, VGExplorer.touch]

/-- Claim C1 witness: a rename to `"a/b"` is rejected with no filesystem
call and no state change, while the new-folder handler given `"a/b"` still
issues filesystem calls. -/
theorem rename_slash_rejected_creates_unchecked_witness :
  containsSlash "a/b" = true ∧
  VGExplorer.showMenuRename (FS.mk ["d"] [("d/x", [1])]) (some "d") "d/x" (some "a/b") =
    ([], FS.mk ["d"] [("d/x", [1])], MenuOutcome.invalidName) ∧
  (VGExplorer.showMenuNewFolder (FS.mk ["d"] [("d/x", [1])]) (some "d") (some "a/b")).1 ≠ [] := by
  refine ⟨by decide, ?_, ?_⟩
  · exact (rename_slash_rejected_creates_unchecked _ _ _ _ (by decide)).1
  · exact (rename_slash_rejected_creates_unchecked (FS.mk ["d"] [("d/x", [1])])
      none "d/x" "a/b" (by decide)).2.1 "d"

/-- Claim C1 counterexample: creating a new folder named `"a/b"` (a name
containing a path separator) under enclosing directory `"d"` on a
filesystem containing directories `"d"` and `"d/a"` is not rejected —
filesystem calls are made and the directory `"d/a/b"` is created. -/
theorem newfolder_slash_fs_call_cex :
  (VGExplorer.showMenuNewFolder (FS.mk ["d", "d/a"] []) (some "d") (some "a/b")).1 ≠ [] ∧
  (VGExplorer.showMenuNewFolder (FS.mk ["d", "d/a"] []) (some "d") (some "a/b")).2.1 ≠
    FS.mk ["d", "d/a"] [] := by decide

/-- Claim C2 (amended): for every datagram whose (1024-byte-truncated)
payload decodes as UTF-8, the visibility-toggle callback is invoked exactly
once when the text equals `"toggle"` and zero times otherwise, and the
loop continues; a payload that is not valid UTF-8 raises a decode error
that terminates the listener loop. -/
theorem daemon_toggle_dispatch (payload : List Nat) :
  (∀ text, utf8Decode (payload.take 1024) = some text →
    Daemon.handleDatagram payload =
      DatagramResult.callbackInvoked (if text = toggleText then 1 else 0)) ∧
  (utf8Decode (payload.take 1024) = none →
    Daemon.handleDatagram payload = DatagramResult.decodeError) := by
  constructor
  · intro text h; simp [Daemon.handleDatagram, h]
  · intro h; simp [Daemon.handleDatagram, h]

/-- Claim C2 witness: the payload `"toggle"` invokes the callback once;
the payload `"hi"` invokes it zero times. -/
theorem daemon_toggle_dispatch_witness :
  Daemon.handleDatagram [116, 111, 103, 103, 108, 101] = DatagramResult.callbackInvoked 1 ∧
  Daemon.handleDatagram [104, 105] = DatagramResult.callbackInvoked 0 := by
  constructor
  · have h := (daemon_toggle_dispatch [116, 111, 103, 103, 108, 101]).1 toggleText (by decide)
    simpa using h
  · have h := (daemon_toggle_dispatch [104, 105]).1 [104, 105] (by decide)
    have hne : ([104, 105] : List Nat) ≠ toggleText := by decide
    simpa [hne] using h

/-- Claim C2 counterexample: the one-byte payload `0xFF` is not `"toggle"`,
yet it is not silently ignored with zero callback invocations — it raises
`UnicodeDecodeError`, killing the listener loop. -/
theorem daemon_invalid_utf8_cex :
  Daemon.handleDatagram [255] = DatagramResult.decodeError ∧
  Daemon.handleDatagram [255] ≠ DatagramResult.callbackInvoked 0 := by decide

/-- Claim C3 (amended): for a file path, `open_file` invokes the editor
command and the process never terminates, but the program itself reports
nothing regardless of the editor command's exit status — the status is
discarded, so an unreachable editor instance is silently swallowed. -/
theorem open_file_drops_and_continues (editorExit : Int) :
  VGExplorer.open_file true editorExit = OpenFileOutcome.mk true false false ∧
  VGExplorer.open_file false editorExit = OpenFileOutcome.mk false false false := ⟨rfl, rfl⟩

/-- Claim C3 counterexample: when the editor command fails (exit status 1,
the unreachable-instance case), the program reports no error to the user,
contradicting the claim that the failure is surfaced. -/
theorem open_file_no_report_cex :
  (VGExplorer.open_file true 1).errorReported = false ∧
  ¬ ((VGExplorer.open_file true 1).errorReported = true) := by decide

/-- Claim C4: in toggle-client mode the process exits 0 after a successful
send; when no endpoint is bound at the derived address, `run_toggle` fails
with `noRunningInstance`, the process exits non-zero, and no filesystem
mutation or GUI startup occurs in either case. -/
theorem toggle_mode_exit_codes :
  mainToggleMode true = ToggleModeOutcome.mk 0 true 0 false ∧
  run_toggle false = Except.error ToggleErr.noRunningInstance ∧
  (mainToggleMode false).exitCode ≠ 0 ∧
  (mainToggleMode false).datagramSent = false ∧
  (mainToggleMode false).fsMutations = 0 ∧
  (mainToggleMode false).guiStarted = false :=
  ⟨rfl, rfl, by decide, rfl, rfl, rfl⟩

/-- Claim C5: `get_cwd` returns the trimmed response text of the remote
`getcwd()` evaluation; when the editor instance is unreachable it fails
with `editorUnreachable`, startup fails with that same error, and on
success the panel root is exactly the trimmed response (never a
fabricated default). -/
theorem get_cwd_unreachable_fatal (resp : Option String) :
  (resp = none → VGExplorer.get_cwd resp = Except.error EditorErr.editorUnreachable ∧
    VGExplorer.initRoot resp = Except.error EditorErr.editorUnreachable) ∧
  (∀ s, resp = some s → VGExplorer.get_cwd resp = Except.ok (pyStrip s) ∧
    VGExplorer.initRoot resp = Except.ok (PanelState.mk (pyStrip s))) := by
  constructor
  · rintro rfl; exact ⟨rfl, rfl⟩
  · rintro s rfl; exact ⟨rfl, rfl⟩

/-- Claim C5 witness: with no reachable editor, startup fails with
`editorUnreachable`; with response `" /home/u\n"` the root is the trimmed
text `"/home/u"`. -/
theorem get_cwd_unreachable_fatal_witness :
  VGExplorer.initRoot none = Except.error EditorErr.editorUnreachable ∧
  VGExplorer.get_cwd (some " /home/u\n") = Except.ok (pyStrip " /home/u\n") ∧
  pyStrip " /home/u\n" = "/home/u" :=
  ⟨((get_cwd_unreachable_fatal none).1 rfl).2,
   ((get_cwd_unreachable_fatal (some " /home/u\n")).2 " /home/u\n" rfl).1, by decide⟩

/-- Claim C6: when the destination directory already holds an entry with
the source's basename, `copy` skips with a `skippedExists` warning, the
filesystem is unchanged, and the destination file's content is untouched. -/
theorem copy_dest_exists_skips (fs : FS) (src_file dest_dir : String)
    (h : fs.existsB (osPathJoin dest_dir (osPathBasename src_file)) = true) :
  VGExplorer.copy fs src_file dest_dir =
    ([FsOp.existsCheck (osPathJoin dest_dir (osPathBasename src_file))], fs,
      CopyReport.skippedExists (osPathJoin dest_dir (osPathBasename src_file))) ∧
  ((VGExplorer.copy fs src_file dest_dir).2.1).contentOf
      (osPathJoin dest_dir (osPathBasename src_file)) =
    fs.contentOf (osPathJoin dest_dir (osPathBasename src_file)) := by
  have h1 : VGExplorer.copy fs src_file dest_dir =
      ([FsOp.existsCheck (osPathJoin dest_dir (osPathBasename src_file))], fs,
        CopyReport.skippedExists (osPathJoin dest_dir (osPathBasename src_file))) := by
    simp [VGExplorer.copy, h]
  exact ⟨h1, by rw [h1]⟩

/-- Claim C6 witness: copying `"s/f"` into `"d"` when `"d/f"` already
exists leaves the filesystem as it was and reports the skip. -/
theorem copy_dest_exists_skips_witness :
  osPathJoin "d" (osPathBasename "s/f") = "d/f" ∧
  VGExplorer.copy (FS.mk ["d"] [("d/f", [1]), ("s/f", [2])]) "s/f" "d" =
    ([FsOp.existsCheck (osPathJoin "d" (osPathBasename "s/f"))],
      FS.mk ["d"] [("d/f", [1]), ("s/f", [2])],
      CopyReport.skippedExists (osPathJoin "d" (osPathBasename "s/f"))) :=
  ⟨by decide, (copy_dest_exists_skips _ _ _ (by decide)).1⟩

/-- Claim C7: when the destination directory holds no entry with the
source's basename (and the source file exists and the destination's parent
directory exists), `copy` produces a destination file whose bytes are
identical to the source's. -/
theorem copy_no_collision_byte_identical (fs : FS) (src_file dest_dir : String) (c : List Nat)
    (hne : fs.existsB (osPathJoin dest_dir (osPathBasename src_file)) = false)
    (hsrc : fs.contentOf src_file = some c)
    (hp : parentOk fs (osPathJoin dest_dir (osPathBasename src_file)) = true) :
  (VGExplorer.copy fs src_file dest_dir).2.2 =
    CopyReport.copied src_file (osPathJoin dest_dir (osPathBasename src_file)) ∧
  ((VGExplorer.copy fs src_file dest_dir).2.1).contentOf
      (osPathJoin dest_dir (osPathBasename src_file)) = some c ∧
  fs.contentOf src_file = some c := by
  have hd : fs.isDirB (osPathJoin dest_dir (osPathBasename src_file)) = false := by
    unfold FS.existsB at hne
    exact (Bool.or_eq_false_iff.mp hne).1
  have hsrc2 : lookupFileList fs.files src_file = some c := hsrc
  refine ⟨?_, ?_, hsrc⟩ <;>
    simp [VGExplorer.copy, hne, shutilCopy2, hsrc2, hd, hp, FS.contentOf, lookupFileList]

/-- Claim C7 witness: copying the file `"s/f"` with bytes `[9, 8]` into
directory `"d"` yields `"d/f"` with exactly the bytes `[9, 8]`. -/
theorem copy_no_collision_byte_identical_witness :
  ((VGExplorer.copy (FS.mk ["d"] [("s/f", [9, 8])]) "s/f" "d").2.1).contentOf
      (osPathJoin "d" (osPathBasename "s/f")) = some [9, 8] ∧
  (VGExplorer.copy (FS.mk ["d"] [("s/f", [9, 8])]) "s/f" "d").2.2 =
    CopyReport.copied "s/f" (osPathJoin "d" (osPathBasename "s/f")) :=
  ⟨(copy_no_collision_byte_identical (FS.mk ["d"] [("s/f", [9, 8])]) "s/f" "d" [9, 8]
      (by decide) (by decide) (by decide)).2.1,
   (copy_no_collision_byte_identical (FS.mk ["d"] [("s/f", [9, 8])]) "s/f" "d" [9, 8]
      (by decide) (by decide) (by decide)).1⟩

/-- Claim C8: on a sound filesystem, `find_enclosing_dir` returns the path
unchanged when it is an existing directory and the path's parent when it
is an existing file. -/
theorem find_enclosing_dir_spec (fs : FS) (p : String) (hs : fs.Sound) :
  (fs.isDirB p = true → VGExplorer.find_enclosing_dir fs p = some p) ∧
  (fs.isFileB p = true → VGExplorer.find_enclosing_dir fs p = some (pyPathParent p)) := by
  constructor
  · intro h; simp [VGExplorer.find_enclosing_dir, h]
  · intro h
    have hd : fs.isDirB p = false := by
      cases hdp : fs.isDirB p
      · rfl
      · exfalso
        have hmem : p ∈ fs.dirs := by simpa [FS.isDirB] using hdp
        have hfm : p ∈ fs.fileNames := by simpa [FS.isFileB] using h
        exact hs p hmem hfm
    simp [VGExplorer.find_enclosing_dir, hd, h]

/-- Claim C8 witness: on a filesystem with directory `"d"` and file
`"d/f"`, the enclosing directory of `"d"` is `"d"` and of `"d/f"` is its
parent `"d"`. -/
theorem find_enclosing_dir_spec_witness :
  VGExplorer.find_enclosing_dir (FS.mk ["d"] [("d/f", [7])]) "d" = some "d" ∧
  VGExplorer.find_enclosing_dir (FS.mk ["d"] [("d/f", [7])]) "d/f" = some (pyPathParent "d/f") ∧
  pyPathParent "d/f" = "d" :=
  ⟨(find_enclosing_dir_spec _ "d" (by decide)).1 (by decide),
   (find_enclosing_dir_spec _ "d/f" (by decide)).2 (by decide), by decide⟩

/-- Claim C9: for a path that is neither an existing directory nor an
existing file, `find_enclosing_dir` returns `none` (Python falls off the
end of the function), and the menu handlers that join a name onto that
result hit `os.path.join(None, ...)`, which raises `TypeError`. -/
theorem find_enclosing_dir_none_cases (fs : FS) (p name : String)
    (hd : fs.isDirB p = false) (hf : fs.isFileB p = false) (hn : name ≠ "") :
  VGExplorer.find_enclosing_dir fs p = none ∧
  VGExplorer.showMenuNewFolder fs (VGExplorer.find_enclosing_dir fs p) (some name) =
    ([], fs, MenuOutcome.pyError PyErr.typeError) ∧
  VGExplorer.showMenuNewFile fs (VGExplorer.find_enclosing_dir fs p) (some name) =
    ([], fs, MenuOutcome.pyError PyErr.typeError) := by
  have h0 : VGExplorer.find_enclosing_dir fs p = none := by
    simp [VGExplorer.find_enclosing_dir, hd, hf]
  rw [h0]
  exact ⟨rfl, by simp [VGExplorer.showMenuNewFolder, hn], by simp [VGExplorer.showMenuNewFile, hn]⟩

/-- Claim C9 witness: on an empty filesystem the path `"ghost"` has no
enclosing directory, and creating a new folder there raises `TypeError`. -/
theorem find_enclosing_dir_none_cases_witness :
  VGExplorer.find_enclosing_dir (FS.mk [] []) "ghost" = none ∧
  VGExplorer.showMenuNewFolder (FS.mk [] [])
      (VGExplorer.find_enclosing_dir (FS.mk [] []) "ghost") (some "x") =
    ([], FS.mk [] [], MenuOutcome.pyError PyErr.typeError) :=
  ⟨(find_enclosing_dir_none_cases (FS.mk [] []) "ghost" "x" (by decide) (by decide)
      (by decide)).1,
   (find_enclosing_dir_none_cases (FS.mk [] []) "ghost" "x" (by decide) (by decide)
      (by decide)).2.1⟩

/-- Claim C10: when the dialog is cancelled or left empty,
`get_dialog_str` returns `None`; the rename handler applies the
path-separator membership test to that `None` and raises `TypeError`
without touching the filesystem, while the new-file and new-folder
handlers guard with a truthiness test and do nothing. -/
theorem rename_cancel_raises (fs : FS) (ed : Option String) (sel t : String) :
  get_dialog_str t false = none ∧
  VGExplorer.showMenuRename fs ed sel (get_dialog_str t false) =
    ([], fs, MenuOutcome.pyError PyErr.typeError) ∧
  VGExplorer.showMenuNewFile fs ed (get_dialog_str t false) = ([], fs, MenuOutcome.ok) ∧
  VGExplorer.showMenuNewFolder fs ed (get_dialog_str t false) = ([], fs, MenuOutcome.ok) := by
  have h0 : get_dialog_str t false = none := by simp [get_dialog_str]
  rw [h0]
  exact ⟨rfl, rfl, rfl, rfl⟩
